import Mathlib

/-!
Verification development for the meshinfo ingestion-and-projection pipeline.

The definitions below are a shallow embedding of the three source modules:

* `data_renderer.py`  — snapshot export of the Store (node-id canonicalization,
  temp-file-then-atomic-replace writes, deterministic serialization);
* `static_html_renderer.py` — the view projector (page-builder loop, per-node
  serialization, distance attachment, active-node filtering);
* `mqtt.py` — the ingestion manager (topic subscription contract, reconnect loop).

Python dicts are embedded as association lists, fallible code as `Except`,
machine state (the output file system, the connection loop) as explicit state
passing.  External collaborators that the spec excludes from the core (the geo
distance function, the template engine) enter as parameters.
-/

namespace Meshinfo

/-! ## `data_renderer.py` — node-id canonicalization (`_render`, lines 24-30)

The loop reads: `if id.startswith('!'): id = id.replace('!', '')` followed by
`if len(id) != 8: continue` and `nodes[id] = node`.  Note that `replace`
removes every `'!'`, not just the leading one, and that only the length of the
canonicalized id is checked — the characters are never validated as hex. -/

/-- `id.replace('!', '') if id.startswith('!') else id` from `_render`. -/
def canonical_export_id (id : String) : String :=
  match id.data with
  | '!' :: _ => ⟨id.data.filter (fun c => c ≠ '!')⟩
  | _ => id

/-- A hexadecimal character, as the spec's "8 hexadecimal characters" reads.
This is the spec-side predicate used to compare against the code's check. -/
def isHexChar (c : Char) : Bool :=
  c.isDigit || ('a' ≤ c && c ≤ 'f') || ('A' ≤ c && c ≤ 'F')

/-- The spec-side retention predicate: after sigil stripping the id is exactly
8 hexadecimal characters. -/
def specKeepsId (id : String) : Bool :=
  (canonical_export_id id).length == 8 && (canonical_export_id id).data.all isHexChar

/-- Python-dict insertion `d[k] = v`: overwrite in place if the key exists,
otherwise append at the end (dicts preserve insertion order). -/
def dictInsert {α : Type} (d : List (String × α)) (k : String) (v : α) :
    List (String × α) :=
  if d.any (fun p => p.1 == k) then
    d.map (fun p => if p.1 == k then (k, v) else p)
  else d ++ [(k, v)]

/-- The key set of an embedded dict. -/
def dictKeys {α : Type} (d : List (String × α)) : List String :=
  d.map Prod.fst

/-- The node-export loop of `_render` (lines 24-30), with the running `nodes`
dict as the accumulator; `continue` for ids whose canonical form is not 8
characters long. -/
def render_nodes_go {α : Type} (acc : List (String × α)) :
    List (String × α) → List (String × α)
  | [] => acc
  | (rid, v) :: rest =>
    let id := canonical_export_id rid
    if id.length = 8 then render_nodes_go (dictInsert acc id v) rest
    else render_nodes_go acc rest

/-- The `nodes` dict that `_render` hands to `save_file("nodes.json", nodes)`. -/
def render_nodes_export {α : Type} (nodes : List (String × α)) :
    List (String × α) :=
  render_nodes_go [] nodes

/-! ## `data_renderer.py` — `save_file` (lines 44-50)

`save_file` opens `{data}/{filename}.swp`, streams `json.dump(data, f, ...)`
into it, and then calls `os.replace(swp, final)`.  The output directory is a
map from paths to file contents.  Serialization happens while writing, so a
serialization error and a write error look the same from outside: the
exception propagates, possibly leaving partial bytes in the `.swp` file, and
`os.replace` — the only statement that touches the final path — never runs. -/

/-- The output directory: path to content of the file at that path. -/
def FSys : Type := String → Option String

/-- Writing (creating or truncating) one file. -/
def setFile (fs : FSys) (p c : String) : FSys :=
  fun q => if q = p then some c else fs q

/-- `os.replace src dst`: atomically rename `src` over `dst`. -/
def replaceFile (fs : FSys) (src dst : String) : FSys :=
  fun q => if q = dst then fs src else if q = src then none else fs q

/-- The final path `f"{data}/{filename}"`. -/
def finalPath (dir fname : String) : String := dir ++ "/" ++ fname

/-- The temporary path `f"{data}/{filename}.swp"`, colocated with the final. -/
def swpPath (dir fname : String) : String := finalPath dir fname ++ ".swp"

/-- The state of the directory after the `.swp` file has been written but
before `os.replace` runs. -/
def writeSwp (fs : FSys) (dir fname content : String) : FSys :=
  setFile fs (swpPath dir fname) content

/-- `DataRenderer.save_file`.  `ser` is the outcome of `json.dump` into the
open `.swp` handle: `.ok content` on success, `.error e` when serialization or
the write fails (in which case `spill` is whatever partial bytes made it into
the temporary file before the exception).  Returns the resulting directory and
the propagated error, if any. -/
def save_file (fs : FSys) (dir fname : String) (ser : Except String String)
    ( spill : String) : FSys × Option String :=
  match ser with
  | .error e => (setFile fs (swpPath dir fname) spill, some e)
  | .ok content =>
    let fs1 := writeSwp fs dir fname content
    (replaceFile fs1 (swpPath dir fname) (finalPath dir fname), none)

/-! ## Deterministic serialization (`json.dump(..., indent=2, sort_keys=True)`)

Modelled from the spec: the concrete serializer is Python's `json.dump`
together with the repository's `encoders._JSONEncoder`, neither of which is
under `src/`; the spec pins down the relevant behavior: "for mapping types,
keys are sorted lexicographically; output is stably formatted (e.g., indented)
so that byte-identical inputs yield byte-identical output". -/

/-- Structured data handed to the exporter (the JSON value universe). -/
inductive J where
  | null : J
  | boolJ : Bool → J
  | intJ : Int → J
  | strJ : String → J
  | arr : List J → J
  | obj : List (String × J) → J

/-- JSON string escaping for the characters that matter here. -/
def escapeChar (c : Char) : List Char :=
  if c = '"' then ['\\', '"']
  else if c = '\\' then ['\\', '\\']
  else if c = '\n' then ['\\', 'n']
  else [c]

/-- A quoted JSON string literal. -/
def jsonQuote (s : String) : String :=
  ⟨'"' :: (s.data.flatMap escapeChar ++ ['"'])⟩

/-- `n` spaces of indentation. -/
def indentStr (n : Nat) : String := ⟨List.replicate n ' '⟩

instance : DecidableRel (fun (a b : String × String) => a.1 ≤ b.1) :=
  fun a b => inferInstanceAs (Decidable (a.1 ≤ b.1))

mutual

/-- Modelled from the spec: deterministic, indented, key-sorted rendering of a
`J` value (the behavior of `json.dump(data, f, indent=2, sort_keys=True)`).
Each object's fields are rendered and then emitted in key-sorted order. -/
def renderJ (ind : Nat) : J → String
  | .null => "null"
  | .boolJ b => if b then "true" else "false"
  | .intJ n => toString n
  | .strJ s => jsonQuote s
  | .arr xs =>
    let rs := renderElems ind xs
    if rs.isEmpty then "[]"
    else "[\n" ++
      String.intercalate ",\n" (rs.map (fun e => indentStr (ind + 2) ++ e)) ++
      "\n" ++ indentStr ind ++ "]"
  | .obj fs =>
    let rfs := List.insertionSort (fun a b => a.1 ≤ b.1) (renderPairs ind fs)
    if rfs.isEmpty then "\x7b\x7d"
    else "\x7b\n" ++
      String.intercalate ",\n"
        (rfs.map (fun p => indentStr (ind + 2) ++ jsonQuote p.1 ++ ": " ++ p.2)) ++
      "\n" ++ indentStr ind ++ "\x7d"

/-- Render every element of an array at the given nesting depth. -/
def renderElems (ind : Nat) : List J → List String
  | [] => []
  | x :: xs => renderJ (ind + 2) x :: renderElems ind xs

/-- Render every field value of an object, keeping the key alongside. -/
def renderPairs (ind : Nat) : List (String × J) → List (String × String)
  | [] => []
  | (k, v) :: xs => (k, renderJ (ind + 2) v) :: renderPairs ind xs

end

/-- The serialized bytes of a snapshot value. -/
def dumps (j : J) : String := renderJ 0 j

/-! ## `static_html_renderer.py` — the page-builder loop (`_render`, lines 27-48)

`_render` iterates a fixed tuple of bound methods; each call is wrapped in
`try/except Exception` which logs `f"Problem with {render_method.__name__}..."`
and continues.  The builders' bodies perform template rendering and file
writes (external collaborators), so a builder is embedded as its outcome: the
list of files it writes on success, or the exception it raises. -/

/-- The fixed, ordered tuple of page-builder names from `_render`. -/
def pageBuilderNames : List String :=
  ["render_index", "render_chat", "render_graph", "render_map",
   "render_mesh_log", "render_mqtt_log", "render_neighbors",
   "render_nodes_each", "render_nodes", "render_routes", "render_stats",
   "render_telemetry", "render_traceroutes"]

/-- The `for render_method in (...): try: render_method() except ...` loop:
given each builder's outcome, produce the files written (in order) and the
error-log entries `(builder name, error)` (in order). -/
def runBuilders (f : String → Except String (List (String × String))) :
    List String → List (String × String) × List (String × String)
  | [] => ([], [])
  | n :: ns =>
    let rest := runBuilders f ns
    match f n with
    | .ok files => (files ++ rest.1, rest.2)
    | .error e => (rest.1, (n, e) :: rest.2)

/-- `StaticHTMLRenderer._render`, as a function of the builders' outcomes. -/
def renderStatic (f : String → Except String (List (String × String))) :
    List (String × String) × List (String × String) :=
  runBuilders f pageBuilderNames

/-! ## `static_html_renderer.py` — the Store and per-node serialization

Nodes live in `self.data.nodes`, a dict from id to a node dict.  The node
fields the renderer touches are embedded as a structure; an `Option` field is
`none` when the Python key is absent or its value is `None`/falsy (the code
only ever combines a truthiness test with key-presence tests, so the collapse
is behavior-preserving — see `host_distance`).  `last_seen`/`telemetry` are
carried through opaquely; datetime handling is a collaborator concern no claim
touches. -/

/-- A `position` dict: scaled fixed-point coordinates, keys optional. -/
structure Position where
  latitude_i : Option Int := none
  longitude_i : Option Int := none
deriving DecidableEq

/-- One raw `neighbors` entry: numeric neighbor address and signal ratio. -/
structure RawNeighbor where
  node_id : Nat
  snr : Int
deriving DecidableEq

/-- A `neighborinfo` dict; `neighbors` is optional (`'neighbors' in ni`). -/
structure NeighborInfo where
  neighbors : Option (List RawNeighbor) := none
deriving DecidableEq

/-- A node dict as the renderer reads it. -/
structure NodeR where
  id : String
  shortname : String := ""
  longname : String := ""
  hardware : Int := 0
  role : Option Int := none
  position : Option Position := none
  neighborinfo : Option NeighborInfo := none
  telemetry : Option String := none
  last_seen : String := ""
  active : Option Bool := none
deriving DecidableEq

/-- `self.data.nodes`: a dict from node id to node. -/
abbrev Store : Type := List (String × NodeR)

/-- The configuration slice the renderer reads. -/
structure Config where
  server_node_id : String
deriving DecidableEq

/-- Python dict lookup `store[k]` / `k in store`. -/
def lookupNode (store : Store) (k : String) : Option NodeR :=
  (store.find? (fun p => p.1 == k)).map Prod.snd

/-- `node["id"].replace("!", "")` (line 225 and line 164): every `'!'` is
removed, unconditionally. -/
def stripBangs (s : String) : String :=
  ⟨s.data.filter (fun c => c ≠ '!')⟩

/-- Python's `round(x, 2)` on the model's exact rationals. -/
def round2 (q : ℚ) : ℚ := (round (q * 100) : ℤ) / 100

/-- `_serialize_position` output: the original scaled fields plus, when both
are present, the unscaled `latitude`/`longitude`. -/
structure SerializedPosition where
  latitude_i : Option Int := none
  longitude_i : Option Int := none
  latitude : Option ℚ := none
  longitude : Option ℚ := none
deriving DecidableEq

/-- `_serialize_position` (lines 293-303). -/
def serialize_position (p : Position) : SerializedPosition :=
  if p.latitude_i.isSome && p.longitude_i.isSome then
    { latitude_i := p.latitude_i, longitude_i := p.longitude_i,
      latitude := p.latitude_i.map (fun a => (a : ℚ) / 10000000),
      longitude := p.longitude_i.map (fun a => (a : ℚ) / 10000000) }
  else
    { latitude_i := p.latitude_i, longitude_i := p.longitude_i }

/-- One serialized neighbor entry (lines 277-290): hex id, snr, and the
optional `distance` key. -/
structure SerializedNeighbor where
  node_id : String
  snr : Int
  distance : Option ℚ := none
deriving DecidableEq

/-- A serialized `neighborinfo` dict (line 262-265). -/
structure SerializedNeighborInfo where
  neighbors : Option (List SerializedNeighbor) := none
deriving DecidableEq

/-- The dict built by `_serialize_node` (lines 227-249).  The optional
`distance_from_host_node` key is `none` exactly when the code leaves the key
unset. -/
structure SerializedNode where
  id : String
  shortname : String
  longname : String
  hardware : Int
  role : Option Int
  position : Option SerializedPosition
  neighborinfo : Option SerializedNeighborInfo
  telemetry : Option String
  last_seen : String
  distance_from_host_node : Option ℚ := none
deriving DecidableEq

/-- One hex digit, lowercase. -/
def hexDigit (n : Nat) : Char :=
  if n < 10 then Char.ofNat (48 + n) else Char.ofNat (87 + n)

/-- Modelled from the spec: `utils.convert_node_id_from_int_to_hex` lives in
the repository's `utils` module, which is not under `src/`; the spec says the
neighbor's numeric address is converted "to the canonical hex id", i.e. the
8-hex-character, sigil-free form. -/
def convert_node_id_from_int_to_hex (n : Nat) : String :=
  ⟨(List.range 8).map (fun i => hexDigit (n / 16 ^ (7 - i) % 16))⟩

/-- The body of the neighbor loop (lines 276-290).  `dist` is the external
`geo.distance_between_two_points` collaborator.  Note the guard: positions
present and both `latitude_i`/`longitude_i` keys present — there is no
zero-coordinate test here, unlike the host-distance guard below. -/
def serialize_one_neighbor (dist : ℚ → ℚ → ℚ → ℚ → ℚ) (store : Store)
    (from_node : NodeR) (n : RawNeighbor) : SerializedNeighbor :=
  let id := convert_node_id_from_int_to_hex n.node_id
  let base : SerializedNeighbor := { node_id := id, snr := n.snr }
  match lookupNode store id with
  | none => base
  | some ni =>
    match from_node.position, ni.position with
    | some fp, some np =>
      match fp.latitude_i, fp.longitude_i, np.latitude_i, np.longitude_i with
      | some fla, some flo, some nla, some nlo =>
        { base with
          distance := some (round2 (dist ((fla : ℚ) / 10000000)
            ((flo : ℚ) / 10000000) ((nla : ℚ) / 10000000)
            ((nlo : ℚ) / 10000000))) }
      | _, _, _, _ => base
    | _, _ => base

/-- `_serialize_neighborinfo_neighbors` (lines 267-291): an unguarded Store
lookup of the node's own id, then the neighbor loop.  A missing key raises
(`.error`), mirroring Python's `KeyError`. -/
def serialize_neighborinfo_neighbors (dist : ℚ → ℚ → ℚ → ℚ → ℚ)
    (store : Store) (node : NodeR) : Except String (List SerializedNeighbor) :=
  match lookupNode store node.id with
  | none => .error ("KeyError: " ++ node.id)
  | some from_node =>
    match node.neighborinfo with
    | none => .error "KeyError: neighborinfo"
    | some ni =>
      match ni.neighbors with
      | none => .error "KeyError: neighbors"
      | some ns => .ok (ns.map (serialize_one_neighbor dist store from_node))

/-- `_serialize_neighborinfo` (lines 258-265): copy the dict and replace
`neighbors` with its serialization when present, `None` otherwise. -/
def serialize_neighborinfo (dist : ℚ → ℚ → ℚ → ℚ → ℚ) (store : Store)
    (node : NodeR) : Except String SerializedNeighborInfo :=
  match node.neighborinfo with
  | none => .error "KeyError: neighborinfo"
  | some ni =>
    match ni.neighbors with
    | none => .ok { neighbors := none }
    | some _ =>
      match serialize_neighborinfo_neighbors dist store node with
      | .error e => .error e
      | .ok ns => .ok { neighbors := some ns }

/-- The host-distance guard and computation (lines 241-249): positions present
(the redundant truthiness re-checks of line 241/243 collapse into presence),
both coordinate keys present on both sides, and all four coordinates nonzero;
then `round(geo.distance_between_two_points(node..., server...), 2)`. -/
def host_distance (dist : ℚ → ℚ → ℚ → ℚ → ℚ) (server_node node : NodeR) :
    Option ℚ :=
  match server_node.position, node.position with
  | some sp, some np =>
    match sp.latitude_i, sp.longitude_i, np.latitude_i, np.longitude_i with
    | some sla, some slo, some nla, some nlo =>
      if sla ≠ 0 ∧ slo ≠ 0 ∧ nla ≠ 0 ∧ nlo ≠ 0 then
        some (round2 (dist ((nla : ℚ) / 10000000) ((nlo : ℚ) / 10000000)
          ((sla : ℚ) / 10000000) ((slo : ℚ) / 10000000)))
      else none
    | _, _, _, _ => none
  | _, _ => none

/-- The `"neighborinfo": self._serialize_neighborinfo(node) if
node['neighborinfo'] else None` entry of the serialized dict (line 234). -/
def serialize_node_ni (dist : ℚ → ℚ → ℚ → ℚ → ℚ) (store : Store)
    (node : NodeR) : Except String (Option SerializedNeighborInfo) :=
  match node.neighborinfo with
  | some _ =>
    match serialize_neighborinfo dist store node with
    | .error e => .error e
    | .ok ni => .ok (some ni)
  | none => .ok none

/-- `_serialize_node` (lines 215-256), simplified mode.  The serialized dict
is built first — including the neighborinfo serialization, which can raise —
then `self.data.nodes[config.server.node_id]` is read (an unguarded dict
index), then the distance key is conditionally attached. -/
def serialize_node (dist : ℚ → ℚ → ℚ → ℚ → ℚ) (store : Store) (cfg : Config)
    (node : NodeR) : Except String SerializedNode :=
  match serialize_node_ni dist store node with
  | .error e => .error e
  | .ok niSer =>
    match lookupNode store cfg.server_node_id with
    | none => .error ("KeyError: " ++ cfg.server_node_id)
    | some server_node =>
      .ok { id := stripBangs node.id, shortname := node.shortname,
            longname := node.longname, hardware := node.hardware,
            role := node.role,
            position := node.position.map serialize_position,
            neighborinfo := niSer, telemetry := node.telemetry,
            last_seen := node.last_seen,
            distance_from_host_node := host_distance dist server_node node }

/-- The shared shape of the `render_nodes`/`render_neighbors` loops: walk the
Store, serialize the nodes satisfying the filter, propagate the first raised
exception. -/
def build_filtered_nodes (dist : ℚ → ℚ → ℚ → ℚ → ℚ) (store : Store)
    (cfg : Config) (pred : NodeR → Bool) :
    List (String × NodeR) → Except String (List (String × SerializedNode))
  | [] => .ok []
  | (id, node) :: rest =>
    if pred node then
      match serialize_node dist store cfg node with
      | .error e => .error e
      | .ok s =>
        match build_filtered_nodes dist store cfg pred rest with
        | .error e => .error e
        | .ok r => .ok ((id, s) :: r)
    else build_filtered_nodes dist store cfg pred rest

/-- The `active_nodes` dict built by `render_nodes` (lines 148-152): only
nodes with `'active' in node and node['active']`. -/
def render_nodes_build (dist : ℚ → ℚ → ℚ → ℚ → ℚ) (store : Store)
    (cfg : Config) : Except String (List (String × SerializedNode)) :=
  build_filtered_nodes dist store cfg (fun n => n.active == some true) store

/-- The `active_nodes_with_neighbors` dict built by `render_neighbors`
(lines 131-135): active nodes with truthy `neighborinfo`. -/
def render_neighbors_build (dist : ℚ → ℚ → ℚ → ℚ → ℚ) (store : Store)
    (cfg : Config) : Except String (List (String × SerializedNode)) :=
  build_filtered_nodes dist store cfg
    (fun n => n.active == some true && n.neighborinfo.isSome) store

/-- The `render_nodes_each` loop (lines 162-171): every node, full mode (the
raw node overlaid with the computed fields — embedded as the pair). -/
def build_each_nodes (dist : ℚ → ℚ → ℚ → ℚ → ℚ) (store : Store) (cfg : Config) :
    List (String × NodeR) → Except String (List (String × (NodeR × SerializedNode)))
  | [] => .ok []
  | (id, node) :: rest =>
    match serialize_node dist store cfg node with
    | .error e => .error e
    | .ok s =>
      match build_each_nodes dist store cfg rest with
      | .error e => .error e
      | .ok r => .ok ((stripBangs id, (node, s)) :: r)

/-- The per-node pages pass. -/
def render_nodes_each_build (dist : ℚ → ℚ → ℚ → ℚ → ℚ) (store : Store)
    (cfg : Config) : Except String (List (String × (NodeR × SerializedNode))) :=
  build_each_nodes dist store cfg store

/-- `render_map` line 106: `server_node = self.data.nodes[config.server.node_id]`,
an unguarded dict index. -/
def render_map_build (store : Store) (cfg : Config) : Except String NodeR :=
  match lookupNode store cfg.server_node_id with
  | none => .error ("KeyError: " ++ cfg.server_node_id)
  | some n => .ok n

/-- `render_index` line 102: `active_nodes=self.data.nodes` — the whole Store. -/
def render_index_active_nodes (store : Store) : Store := store

/-- `render_routes` line 177: `active_nodes=self.data.nodes` — the whole Store. -/
def render_routes_active_nodes (store : Store) : Store := store

/-- The `active_nodes` counter of `render_stats` (lines 190-192). -/
def render_stats_active_count (store : Store) : Nat :=
  store.foldl (fun acc p => if p.2.active == some true then acc + 1 else acc) 0

/-- Whether an `Except` is an error (a raised exception). -/
def isErr {ε α : Type} : Except ε α → Bool
  | .error _ => true
  | .ok _ => false

instance {ε α : Type} [DecidableEq ε] [DecidableEq α] :
    DecidableEq (Except ε α) := fun x y =>
  match x, y with
  | .error a, .error b =>
    if h : a = b then .isTrue (by rw [h])
    else .isFalse (fun hh => h (by injection hh))
  | .ok a, .ok b =>
    if h : a = b then .isTrue (by rw [h])
    else .isFalse (fun hh => h (by injection hh))
  | .error _, .ok _ => .isFalse (fun hh => Except.noConfusion hh)
  | .ok _, .error _ => .isFalse (fun hh => Except.noConfusion hh)

/-! ## `mqtt.py` — subscription contract and reconnect loop (`connect`)

`connect` runs `while True:` around an `aiomqtt.Client(...)` session; inside,
the subscribe step checks `broker.topics` (present, not `None`, a `list`) then
`broker.topic` (present, not `None`, a `str`) and otherwise logs an error and
calls `exit(1)`.  `except aiomqtt.MqttError` catches every transport-level
failure (connect or stream), logs `"Disconnected from MQTT broker: ..."`, and
sleeps 5 before the loop re-enters; `exit(1)` raises `SystemExit`, which the
handler does not catch. -/

/-- A value found at a broker config key (to express the `is not None` and
`isinstance` tests). -/
inductive TopicsVal where
  | strV : String → TopicsVal
  | listV : List String → TopicsVal
  | noneV : TopicsVal
  | otherV : TopicsVal
deriving DecidableEq

/-- The broker-config slice `connect` reads; `none` = key absent. -/
structure BrokerConfig where
  topics : Option TopicsVal := none
  topic : Option TopicsVal := none
deriving DecidableEq

/-- The subscribe step (lines 64-72): the topics to subscribe to, or the
process exit code. -/
def subscribeTopics (b : BrokerConfig) : Except Nat (List String) :=
  match b.topics with
  | some (.listV ts) => .ok ts
  | _ =>
    match b.topic with
    | some (.strV t) => .ok [t]
    | _ => .error 1

/-- One transport-level outcome of a `while True` iteration: the connect
attempt itself fails, or the session connects, processes some messages, and
then drops with an `MqttError`. -/
inductive ConnEvent where
  | connectFail : String → ConnEvent
  | sessionDrop : Nat → String → ConnEvent
deriving DecidableEq

/-- Observable actions of one loop iteration. -/
inductive MAction where
  | logInfo : String → MAction
  | logErrorA : String → MAction
  | subscribeA : String → MAction
  | processMsg : Nat → MAction
  | sleep : Nat → MAction
deriving DecidableEq

/-- How one iteration ends. -/
inductive IterResult where
  | backoffRetry : IterResult
  | exitFatal : Nat → IterResult
deriving DecidableEq

/-- One iteration of the `while True` body of `connect` (lines 51-84). -/
def connectIter (b : BrokerConfig) (ev : ConnEvent) : List MAction × IterResult :=
  match ev with
  | .connectFail err =>
    ([.logInfo ("Disconnected from MQTT broker: " ++ err), .sleep 5],
     .backoffRetry)
  | .sessionDrop n err =>
    match subscribeTopics b with
    | .error c =>
      ([.logErrorA
          "No MQTT topics to subscribe to defined in config broker.topics or broker.topic"],
       .exitFatal c)
    | .ok ts =>
      (ts.map MAction.subscribeA ++ (List.range n).map MAction.processMsg ++
        [.logInfo ("Disconnected from MQTT broker: " ++ err), .sleep 5],
       .backoffRetry)

/-- The ingestion loop's state: waiting to (re)connect, or the process has
terminated. -/
inductive LoopState where
  | disconnected : LoopState
  | exited : Nat → LoopState
deriving DecidableEq

/-- One loop transition. -/
def stepLoop (b : BrokerConfig) (s : LoopState) (ev : ConnEvent) : LoopState :=
  match s with
  | .exited c => .exited c
  | .disconnected =>
    match (connectIter b ev).2 with
    | .backoffRetry => .disconnected
    | .exitFatal c => .exited c

/-- Running the `while True` loop over a sequence of transport outcomes. -/
def runLoop (b : BrokerConfig) (evs : List ConnEvent) : LoopState :=
  evs.foldl (stepLoop b) .disconnected

/-! ## Concrete fixtures used by witnesses and counterexamples -/

/-- A stand-in for the external `geo.distance_between_two_points` collaborator. -/
def dist0 : ℚ → ℚ → ℚ → ℚ → ℚ := fun _ _ _ _ => 0

/-- An active node with a nonzero position, observed under its own id. -/
def wNode : NodeR :=
  { id := "11111111",
    position := some { latitude_i := some 10000000, longitude_i := some 10000000 },
    active := some true }

/-- A Store holding only `wNode`. -/
def wStore : Store := [("11111111", wNode)]

/-- A configuration whose server node is `wNode`. -/
def wCfg : Config := { server_node_id := "11111111" }

/-- A node whose position has both coordinate keys present with value `0`. -/
def c6B : NodeR :=
  { id := "bbbbbbbb",
    position := some { latitude_i := some 0, longitude_i := some 0 } }

/-- A node at a nonzero position listing `c6B` (numeric address `0xbbbbbbbb`)
as its only neighbor. -/
def c6A : NodeR :=
  { id := "aaaaaaaa",
    position := some { latitude_i := some 10000000, longitude_i := some 10000000 },
    neighborinfo := some { neighbors := some [{ node_id := 3149642683, snr := 5 }] },
    active := some true }

/-- The Store holding `c6A` and `c6B`. -/
def c6Store : Store := [("aaaaaaaa", c6A), ("bbbbbbbb", c6B)]

/-! ## Helper lemmas -/

lemma mem_dictKeys_dictInsert {α : Type} (d : List (String × α)) (k : String)
    (v : α) (k' : String) :
    k' ∈ dictKeys (dictInsert d k v) ↔ k' = k ∨ k' ∈ dictKeys d := by
  unfold dictInsert dictKeys
  by_cases h : d.any (fun p => p.1 == k)
  · rw [if_pos h, List.map_map]
    have hk : k ∈ d.map Prod.fst := by
      obtain ⟨p, hp, hpk⟩ := List.any_eq_true.mp h
      exact List.mem_map.mpr ⟨p, hp, (beq_iff_eq.mp hpk)⟩
    have hmaps : d.map (Prod.fst ∘ fun p => if p.1 == k then (k, v) else p) =
        d.map Prod.fst := by
      apply List.map_congr_left
      intro p _
      by_cases hp : p.1 = k <;> simp [hp]
    rw [hmaps]
    constructor
    · exact Or.inr
    · rintro (he | hm)
      · exact he ▸ hk
      · exact hm
  · rw [if_neg h, List.map_append]
    simp [Or.comm]

lemma mem_keys_render_nodes_go {α : Type} (l : List (String × α)) :
    ∀ (acc : List (String × α)) (k : String),
      k ∈ dictKeys (render_nodes_go acc l) ↔
        k ∈ dictKeys acc ∨
          ∃ p ∈ l, canonical_export_id p.1 = k ∧ k.length = 8 := by
  induction l with
  | nil => intro acc k; simp [render_nodes_go]
  | cons hd tl ih =>
    intro acc k
    obtain ⟨rid, v⟩ := hd
    by_cases h : (canonical_export_id rid).length = 8
    · rw [show render_nodes_go acc ((rid, v) :: tl) =
          render_nodes_go (dictInsert acc (canonical_export_id rid) v) tl by
        simp [render_nodes_go, h], ih, mem_dictKeys_dictInsert]
      constructor
      · rintro ((he | hm) | ⟨p, hp, hc, hl⟩)
        · exact Or.inr ⟨(rid, v), List.mem_cons_self _ _, he.symm, he ▸ h⟩
        · exact Or.inl hm
        · exact Or.inr ⟨p, List.mem_cons_of_mem _ hp, hc, hl⟩
      · rintro (hm | ⟨p, hp, hc, hl⟩)
        · exact Or.inl (Or.inr hm)
        · rcases List.mem_cons.mp hp with he | hp'
          · exact Or.inl (Or.inl (by rw [← hc, he]))
          · exact Or.inr ⟨p, hp', hc, hl⟩
    · rw [show render_nodes_go acc ((rid, v) :: tl) = render_nodes_go acc tl by
        simp [render_nodes_go, h], ih]
      constructor
      · rintro (hm | ⟨p, hp, hc, hl⟩)
        · exact Or.inl hm
        · exact Or.inr ⟨p, List.mem_cons_of_mem _ hp, hc, hl⟩
      · rintro (hm | ⟨p, hp, hc, hl⟩)
        · exact Or.inl hm
        · rcases List.mem_cons.mp hp with he | hp'
          · exact absurd (by rw [he] at hc; rw [hc]; exact hl) h
          · exact Or.inr ⟨p, hp', hc, hl⟩

lemma swpPath_ne_finalPath (dir fname : String) :
    swpPath dir fname ≠ finalPath dir fname := by
  intro h
  have hl := congrArg String.length h
  rw [swpPath, String.length_append] at hl
  have h4 : (".swp" : String).length = 4 := rfl
  omega

lemma save_file_error_state (fs : FSys) (dir fname e sp : String) :
    save_file fs dir fname (.error e) sp =
      (setFile fs (swpPath dir fname) sp, some e) := rfl

lemma save_file_ok_final (fs : FSys) (dir fname c sp : String) :
    (save_file fs dir fname (.ok c) sp).1 (finalPath dir fname) = some c := by
  show replaceFile (writeSwp fs dir fname c) (swpPath dir fname)
      (finalPath dir fname) (finalPath dir fname) = some c
  unfold replaceFile writeSwp setFile
  rw [if_pos rfl, if_pos rfl]

lemma setFile_other (fs : FSys) (p c q : String) (h : q ≠ p) :
    setFile fs p c q = fs q := by
  unfold setFile
  rw [if_neg h]

lemma renderPairs_eq_map (ind : Nat) :
    ∀ l : List (String × J),
      renderPairs ind l = l.map (fun p => (p.1, renderJ (ind + 2) p.2)) := by
  intro l
  induction l with
  | nil => rfl
  | cons hd tl ih =>
    obtain ⟨k, v⟩ := hd
    simp [renderPairs, ih]

lemma sorted_lt_of_sorted_le_nodup (l : List (String × String))
    (hs : l.Sorted (fun a b => a.1 ≤ b.1)) (hn : (l.map Prod.fst).Nodup) :
    l.Sorted (fun a b => a.1 < b.1) := by
  have hne : l.Pairwise (fun a b => a.1 ≠ b.1) := by
    rw [List.Nodup, List.pairwise_map] at hn
    exact hn
  exact (hs.and hne).imp (fun h => lt_of_le_of_ne h.1 h.2)

lemma insertionSort_eq_of_perm_nodup (l1 l2 : List (String × String))
    (hp : l1.Perm l2) (hn : (l1.map Prod.fst).Nodup) :
    List.insertionSort (fun a b => a.1 ≤ b.1) l1 =
      List.insertionSort (fun a b => a.1 ≤ b.1) l2 := by
  haveI : IsTotal (String × String) (fun a b => a.1 ≤ b.1) :=
    ⟨fun a b => le_total a.1 b.1⟩
  haveI : IsTrans (String × String) (fun a b => a.1 ≤ b.1) :=
    ⟨fun _ _ _ hab hbc => le_trans hab hbc⟩
  haveI : IsAntisymm (String × String) (fun a b => a.1 < b.1) :=
    ⟨fun _ _ h1 h2 => (lt_asymm h1 h2).elim⟩
  have hperm : (List.insertionSort (fun a b => a.1 ≤ b.1) l1).Perm
      (List.insertionSort (fun a b => a.1 ≤ b.1) l2) :=
    ((List.perm_insertionSort _ l1).trans hp).trans
      (List.perm_insertionSort _ l2).symm
  have hs1 := List.sorted_insertionSort (fun (a b : String × String) => a.1 ≤ b.1) l1
  have hs2 := List.sorted_insertionSort (fun (a b : String × String) => a.1 ≤ b.1) l2
  have hn1 : ((List.insertionSort (fun a b => a.1 ≤ b.1) l1).map Prod.fst).Nodup :=
    (((List.perm_insertionSort _ l1).map Prod.fst).nodup_iff).mpr hn
  have hn2 : ((List.insertionSort (fun a b => a.1 ≤ b.1) l2).map Prod.fst).Nodup :=
    ((hperm.map Prod.fst).nodup_iff).mp hn1
  exact List.eq_of_perm_of_sorted hperm
    (sorted_lt_of_sorted_le_nodup _ hs1 hn1)
    (sorted_lt_of_sorted_le_nodup _ hs2 hn2)

lemma dumps_obj_perm (f1 f2 : List (String × J)) (hp : f1.Perm f2)
    (hn : (f1.map Prod.fst).Nodup) :
    dumps (J.obj f1) = dumps (J.obj f2) := by
  have hpairs : (renderPairs 0 f1).Perm (renderPairs 0 f2) := by
    rw [renderPairs_eq_map, renderPairs_eq_map]
    exact hp.map _
  have hnpairs : ((renderPairs 0 f1).map Prod.fst).Nodup := by
    rw [renderPairs_eq_map, List.map_map]
    exact hn
  have hsort := insertionSort_eq_of_perm_nodup _ _ hpairs hnpairs
  show renderJ 0 (J.obj f1) = renderJ 0 (J.obj f2)
  simp only [renderJ]
  rw [hsort]

lemma runBuilders_eq (f : String → Except String (List (String × String))) :
    ∀ ns, runBuilders f ns =
      (ns.flatMap (fun n => ((f n).toOption.getD [])),
       ns.filterMap
         (fun n => match f n with | .error e => some (n, e) | .ok _ => none)) := by
  intro ns
  induction ns with
  | nil => rfl
  | cons n ns ih =>
    cases hf : f n with
    | ok files => simp [runBuilders, hf, ih, Except.toOption]
    | error e => simp [runBuilders, hf, ih, Except.toOption]

/-! ## Claim C1 -/

/-- C1, counterexample to the claim as stated: the export loop keeps a node
whose id is 8 characters long but not hexadecimal (`"zzzzzzzz"`), so retention
is not equivalent to "exactly 8 hexadecimal characters after sigil
stripping". -/
theorem C1_counterexample :
    "zzzzzzzz" ∈ dictKeys (render_nodes_export [("zzzzzzzz", (0 : Nat))]) ∧
    specKeepsId "zzzzzzzz" = false := by decide

/-- C1, amended: a raw node id present in the Store is kept in the exported
node set (under its canonical form) iff the canonical id — all `'!'`
characters removed when the id starts with `'!'` — is exactly 8 characters
long; hexadecimal-ness is not checked, and ids failing the check are skipped
without failing the export (the loop is total). -/
theorem C1_amended_retention {α : Type} (nodes : List (String × α))
    (rawId : String) (v : α) (h : (rawId, v) ∈ nodes) :
    canonical_export_id rawId ∈ dictKeys (render_nodes_export nodes) ↔
      (canonical_export_id rawId).length = 8 := by
  unfold render_nodes_export
  rw [mem_keys_render_nodes_go]
  constructor
  · rintro (hacc | ⟨p, _, _, hl⟩)
    · simp [dictKeys] at hacc
    · exact hl
  · intro hlen
    exact Or.inr ⟨(rawId, v), h, rfl, hlen⟩

/-- C1, witness: the spec's own example `"!1a2b3c4d"` is kept as
`"1a2b3c4d"`, while the 6-character `"abc123"` is dropped. -/
theorem C1_amended_retention_witness :
    ("!1a2b3c4d", (0 : Nat)) ∈ [("!1a2b3c4d", (0 : Nat)), ("abc123", 1)] ∧
    (canonical_export_id "!1a2b3c4d" ∈
        dictKeys (render_nodes_export [("!1a2b3c4d", (0 : Nat)), ("abc123", 1)]) ↔
      (canonical_export_id "!1a2b3c4d").length = 8) ∧
    ("abc123", (1 : Nat)) ∈ [("!1a2b3c4d", (0 : Nat)), ("abc123", 1)] ∧
    (canonical_export_id "abc123" ∈
        dictKeys (render_nodes_export [("!1a2b3c4d", (0 : Nat)), ("abc123", 1)]) ↔
      (canonical_export_id "abc123").length = 8) :=
  ⟨by decide,
   C1_amended_retention [("!1a2b3c4d", (0 : Nat)), ("abc123", 1)] "!1a2b3c4d" 0
     (by decide),
   by decide,
   C1_amended_retention [("!1a2b3c4d", (0 : Nat)), ("abc123", 1)] "abc123" 1
     (by decide)⟩

/-! ## Claim C2 -/

/-- C2: every snapshot export serializes into a temporary path colocated with
the final path (`final ++ ".swp"`) and installs it with a single atomic
replace.  If serialization or the temp write fails, the error propagates to
the caller and the final path is untouched; on success the only mutation of
the final path is the replace step (the intermediate post-write state still
shows the old final content). -/
theorem C2_atomic_export (fs : FSys) (dir fname : String) :
    swpPath dir fname = finalPath dir fname ++ ".swp" ∧
    (∀ e sp, (save_file fs dir fname (.error e) sp).2 = some e ∧
      (save_file fs dir fname (.error e) sp).1 (finalPath dir fname) =
        fs (finalPath dir fname)) ∧
    (∀ content, writeSwp fs dir fname content (finalPath dir fname) =
        fs (finalPath dir fname)) ∧
    (∀ content sp, (save_file fs dir fname (.ok content) sp).2 = none ∧
      (save_file fs dir fname (.ok content) sp).1 (finalPath dir fname) =
        some content) := by
  have hne : finalPath dir fname ≠ swpPath dir fname :=
    fun h => swpPath_ne_finalPath dir fname h.symm
  refine ⟨rfl, ?_, ?_, ?_⟩
  · intro e sp
    rw [save_file_error_state]
    exact ⟨rfl, setFile_other fs (swpPath dir fname) sp (finalPath dir fname) hne⟩
  · intro content
    exact setFile_other fs (swpPath dir fname) content (finalPath dir fname) hne
  · intro content sp
    exact ⟨rfl, save_file_ok_final fs dir fname content sp⟩

/-! ## Claim C3 -/

/-- C3: snapshot serialization is deterministic — writing the same serialized
data twice with no intervening mutation leaves the final path with the same
bytes both times (and equal to the serialized content); the serializer emits
every object's keys in lexicographically sorted order with stable indented
formatting; and two objects equal as mappings (the same fields in any
insertion order, keys distinct) serialize to byte-identical output. -/
theorem C3_deterministic_export :
    (∀ (fs : FSys) (dir fname : String) (d : J),
      (save_file fs dir fname (.ok (dumps d)) "").1 (finalPath dir fname) =
        some (dumps d) ∧
      (save_file ((save_file fs dir fname (.ok (dumps d)) "").1) dir fname
          (.ok (dumps d)) "").1 (finalPath dir fname) =
        (save_file fs dir fname (.ok (dumps d)) "").1 (finalPath dir fname)) ∧
    (∀ (f1 f2 : List (String × J)), f1.Perm f2 → (f1.map Prod.fst).Nodup →
      dumps (J.obj f1) = dumps (J.obj f2)) ∧
    (∀ (ind : Nat) (fields : List (String × J)),
      ((List.insertionSort (fun a b => a.1 ≤ b.1)
          (renderPairs ind fields)).map Prod.fst).Sorted (· ≤ ·)) := by
  refine ⟨?_, dumps_obj_perm, ?_⟩
  · intro fs dir fname d
    rw [save_file_ok_final, save_file_ok_final]
    exact ⟨rfl, rfl⟩
  · intro ind fields
    haveI : IsTotal (String × String) (fun a b => a.1 ≤ b.1) :=
      ⟨fun a b => le_total a.1 b.1⟩
    haveI : IsTrans (String × String) (fun a b => a.1 ≤ b.1) :=
      ⟨fun _ _ _ hab hbc => le_trans hab hbc⟩
    have hs := List.sorted_insertionSort (fun (a b : String × String) => a.1 ≤ b.1)
      (renderPairs ind fields)
    rw [List.Sorted, List.pairwise_map]
    exact hs

/-- C3, witness: two key-permuted two-field objects with distinct keys
serialize identically. -/
theorem C3_deterministic_export_witness :
    ([("b", J.intJ 2), ("a", J.intJ 1)] : List (String × J)).Perm
      [("a", J.intJ 1), ("b", J.intJ 2)] ∧
    (([("b", J.intJ 2), ("a", J.intJ 1)] : List (String × J)).map
      Prod.fst).Nodup ∧
    dumps (J.obj [("b", J.intJ 2), ("a", J.intJ 1)]) =
      dumps (J.obj [("a", J.intJ 1), ("b", J.intJ 2)]) := by
  have hperm : ([("b", J.intJ 2), ("a", J.intJ 1)] : List (String × J)).Perm
      [("a", J.intJ 1), ("b", J.intJ 2)] := List.Perm.swap _ _ _
  have hnd : (([("b", J.intJ 2), ("a", J.intJ 1)] : List (String × J)).map
      Prod.fst).Nodup := by decide
  exact ⟨hperm, hnd, C3_deterministic_export.2.1 _ _ hperm hnd⟩

/-! ## Claim C4 -/

/-- C4: the top-level renderer invokes the fixed ordered list of page builders
(index, chat, graph, map, mesh-log, mqtt-log, neighbors, per-node pages,
node-list, routes, stats, telemetry, traceroutes); the outcome is fully
compositional per builder — every successful builder's files are written and
every failing builder contributes exactly one log entry naming it — so an
exception in one builder never prevents any later builder from running. -/
theorem C4_builder_isolation
    (f : String → Except String (List (String × String))) :
    pageBuilderNames =
      ["render_index", "render_chat", "render_graph", "render_map",
       "render_mesh_log", "render_mqtt_log", "render_neighbors",
       "render_nodes_each", "render_nodes", "render_routes", "render_stats",
       "render_telemetry", "render_traceroutes"] ∧
    renderStatic f =
      (pageBuilderNames.flatMap (fun n => ((f n).toOption.getD [])),
       pageBuilderNames.filterMap
         (fun n => match f n with | .error e => some (n, e) | .ok _ => none)) :=
  ⟨rfl, runBuilders_eq f pageBuilderNames⟩

/-! ## Helper lemmas for the per-node serializer -/

lemma host_distance_isSome_iff (dist : ℚ → ℚ → ℚ → ℚ → ℚ)
    (server_node node : NodeR) :
    (host_distance dist server_node node).isSome = true ↔
      ((∃ sp a b, server_node.position = some sp ∧ sp.latitude_i = some a ∧
          sp.longitude_i = some b ∧ a ≠ 0 ∧ b ≠ 0) ∧
       (∃ np a b, node.position = some np ∧ np.latitude_i = some a ∧
          np.longitude_i = some b ∧ a ≠ 0 ∧ b ≠ 0)) := by
  cases hs : server_node.position with
  | none => simp [host_distance, hs]
  | some sp =>
    cases hn : node.position with
    | none => simp [host_distance, hs, hn]
    | some np =>
      cases hsa : sp.latitude_i <;> cases hsb : sp.longitude_i <;>
        cases hna : np.latitude_i <;> cases hnb : np.longitude_i <;>
          simp only [host_distance, hs, hn, hsa, hsb, hna, hnb] <;>
            simp_all <;> try tauto

lemma serialize_node_distance (dist : ℚ → ℚ → ℚ → ℚ → ℚ) (store : Store)
    (cfg : Config) (node server_node : NodeR) (s : SerializedNode)
    (hs : lookupNode store cfg.server_node_id = some server_node)
    (hres : serialize_node dist store cfg node = .ok s) :
    s.distance_from_host_node = host_distance dist server_node node := by
  cases hni : serialize_node_ni dist store node with
  | error e => simp [serialize_node, hni] at hres
  | ok niSer =>
    simp only [serialize_node, hni, hs] at hres
    injection hres with hres
    rw [← hres]

lemma serialize_node_err_of_no_server (dist : ℚ → ℚ → ℚ → ℚ → ℚ)
    (store : Store) (cfg : Config) (node : NodeR)
    (hmiss : lookupNode store cfg.server_node_id = none) :
    isErr (serialize_node dist store cfg node) = true := by
  cases hni : serialize_node_ni dist store node with
  | error e => simp [serialize_node, hni, isErr]
  | ok niSer => simp [serialize_node, hni, hmiss, isErr]

lemma build_filtered_keys (dist : ℚ → ℚ → ℚ → ℚ → ℚ) (store : Store)
    (cfg : Config) (pred : NodeR → Bool) :
    ∀ (l : List (String × NodeR)) (res : List (String × SerializedNode)),
      build_filtered_nodes dist store cfg pred l = .ok res →
        res.map Prod.fst = (l.filter (fun p => pred p.2)).map Prod.fst := by
  intro l
  induction l with
  | nil =>
    intro res h
    injection h with h
    rw [← h]
    rfl
  | cons hd tl ih =>
    intro res h
    obtain ⟨id, node⟩ := hd
    by_cases hp : pred node
    · simp only [build_filtered_nodes, hp, if_pos] at h
      cases hser : serialize_node dist store cfg node with
      | error e => rw [hser] at h; exact absurd h (by simp)
      | ok s =>
        rw [hser] at h
        cases hrest : build_filtered_nodes dist store cfg pred tl with
        | error e => rw [hrest] at h; exact absurd h (by simp)
        | ok r =>
          rw [hrest] at h
          injection h with h
          rw [← h]
          simp [List.filter_cons, hp, ih r hrest]
    · simp only [build_filtered_nodes, hp, if_neg, Bool.false_eq_true,
        not_false_eq_true] at h
      simp [List.filter_cons, hp, ih res h]

lemma build_filtered_err_iff (dist : ℚ → ℚ → ℚ → ℚ → ℚ) (store : Store)
    (cfg : Config) (pred : NodeR → Bool)
    (hser : ∀ node, isErr (serialize_node dist store cfg node) = true) :
    ∀ l : List (String × NodeR),
      isErr (build_filtered_nodes dist store cfg pred l) = true ↔
        ∃ p ∈ l, pred p.2 = true := by
  intro l
  induction l with
  | nil => simp [build_filtered_nodes, isErr]
  | cons hd tl ih =>
    obtain ⟨id, node⟩ := hd
    by_cases hp : pred node
    · cases hs : serialize_node dist store cfg node with
      | error e =>
        have hred : build_filtered_nodes dist store cfg pred ((id, node) :: tl) =
            .error e := by
          simp [build_filtered_nodes, hp, hs]
        rw [hred]
        exact iff_of_true rfl ⟨(id, node), List.mem_cons_self _ _, hp⟩
      | ok s => exact absurd (hser node) (by simp [hs, isErr])
    · simp only [build_filtered_nodes, hp, if_neg, Bool.false_eq_true,
        not_false_eq_true, ih]
      constructor
      · rintro ⟨p, hpmem, hpp⟩
        exact ⟨p, List.mem_cons_of_mem _ hpmem, hpp⟩
      · rintro ⟨p, hpmem, hpp⟩
        rcases List.mem_cons.mp hpmem with he | hm
        · exact absurd (he ▸ hpp) (by simp [hp])
        · exact ⟨p, hm, hpp⟩

lemma build_each_err_iff (dist : ℚ → ℚ → ℚ → ℚ → ℚ) (store : Store)
    (cfg : Config)
    (hser : ∀ node, isErr (serialize_node dist store cfg node) = true) :
    ∀ l : List (String × NodeR),
      isErr (build_each_nodes dist store cfg l) = true ↔ l ≠ [] := by
  intro l
  induction l with
  | nil => simp [build_each_nodes, isErr]
  | cons hd tl _ =>
    obtain ⟨id, node⟩ := hd
    cases hs : serialize_node dist store cfg node with
    | error e =>
      have hred : build_each_nodes dist store cfg ((id, node) :: tl) =
          .error e := by
        simp [build_each_nodes, hs]
      rw [hred]
      exact iff_of_true rfl (by simp)
    | ok s => exact absurd (hser node) (by simp [hs, isErr])

lemma foldl_count_eq_filter_length (pred : (String × NodeR) → Bool) :
    ∀ (l : List (String × NodeR)) (n : Nat),
      l.foldl (fun acc p => if pred p then acc + 1 else acc) n =
        n + (l.filter pred).length := by
  intro l
  induction l with
  | nil => intro n; simp
  | cons hd tl ih =>
    intro n
    by_cases hp : pred hd <;> simp [List.filter_cons, hp, ih] <;> omega

/-! ## Claim C5 -/

/-- C5: in per-node serialization the `distance_from_host_node` field is
attached if and only if both the server node and the target node have a
position carrying both `latitude_i` and `longitude_i` with all four values
nonzero; otherwise the key is omitted (`none`), not set to zero.  The
attached value is the geo collaborator's result rounded to 2 decimal places
(the `host_distance` expression). -/
theorem C5_host_distance_iff (dist : ℚ → ℚ → ℚ → ℚ → ℚ) (store : Store)
    (cfg : Config) (node server_node : NodeR) (s : SerializedNode)
    (hs : lookupNode store cfg.server_node_id = some server_node)
    (hres : serialize_node dist store cfg node = .ok s) :
    s.distance_from_host_node = host_distance dist server_node node ∧
    (s.distance_from_host_node.isSome = true ↔
      ((∃ sp a b, server_node.position = some sp ∧ sp.latitude_i = some a ∧
          sp.longitude_i = some b ∧ a ≠ 0 ∧ b ≠ 0) ∧
       (∃ np a b, node.position = some np ∧ np.latitude_i = some a ∧
          np.longitude_i = some b ∧ a ≠ 0 ∧ b ≠ 0))) := by
  have hd := serialize_node_distance dist store cfg node server_node s hs hres
  exact ⟨hd, by rw [hd]; exact host_distance_isSome_iff dist server_node node⟩

/-- C5, witness: for a server node that is its own target at a nonzero
position, serialization succeeds and the distance field is attached. -/
theorem C5_host_distance_iff_witness :
    lookupNode wStore wCfg.server_node_id = some wNode ∧
    ∃ s, serialize_node dist0 wStore wCfg wNode = .ok s ∧
      s.distance_from_host_node.isSome = true := by
  have hlk : lookupNode wStore wCfg.server_node_id = some wNode := by decide
  obtain ⟨s, hs⟩ : ∃ s, serialize_node dist0 wStore wCfg wNode = .ok s := ⟨_, rfl⟩
  refine ⟨hlk, s, hs, ?_⟩
  exact (C5_host_distance_iff dist0 wStore wCfg wNode wNode s hlk hs).2.mpr
    ⟨⟨_, _, _, rfl, rfl, rfl, by decide, by decide⟩,
     ⟨_, _, _, rfl, rfl, rfl, by decide, by decide⟩⟩

/-! ## Claim C6 -/

/-- C6, counterexample to the claim as stated: neighbor `c6B` sits at
coordinates `(0, 0)` (both keys present, both values zero) and is present in
the Store, yet the serialized neighbor entry for it carries an attached
`distance` — the neighbor-distance code has no zero-coordinate suppression,
unlike the host-distance rule. -/
theorem C6_counterexample :
    c6B.position = some { latitude_i := some 0, longitude_i := some 0 } ∧
    lookupNode c6Store "bbbbbbbb" = some c6B ∧
    (serialize_neighborinfo_neighbors dist0 c6Store c6A).map
        (fun ns => ns.map (fun n => (n.node_id, n.distance.isSome))) =
      .ok [("bbbbbbbb", true)] := by
  exact ⟨rfl, by decide, by decide⟩

/-- C6, amended: for a node whose id resolves in the Store and whose
neighbor list is present, neighbor serialization maps each raw entry through
`serialize_one_neighbor`, and the `distance` field of an entry is attached iff
the converted hex id is present in the Store and both endpoints have a
position carrying both `latitude_i` and `longitude_i` keys — with no
zero-coordinate suppression (zero-valued coordinates do not suppress the
neighbor distance, unlike the host-distance rule). -/
theorem C6_amended_neighbor_distance (dist : ℚ → ℚ → ℚ → ℚ → ℚ)
    (store : Store) (node from_node : NodeR) (ni : NeighborInfo)
    (rawNs : List RawNeighbor)
    (hfrom : lookupNode store node.id = some from_node)
    (hni : node.neighborinfo = some ni) (hns : ni.neighbors = some rawNs) :
    serialize_neighborinfo_neighbors dist store node =
      .ok (rawNs.map (serialize_one_neighbor dist store from_node)) ∧
    ∀ n : RawNeighbor,
      (serialize_one_neighbor dist store from_node n).distance.isSome = true ↔
        ∃ nb, lookupNode store (convert_node_id_from_int_to_hex n.node_id) =
            some nb ∧
          ∃ fp np, from_node.position = some fp ∧ nb.position = some np ∧
            fp.latitude_i.isSome = true ∧ fp.longitude_i.isSome = true ∧
            np.latitude_i.isSome = true ∧ np.longitude_i.isSome = true := by
  constructor
  · simp [serialize_neighborinfo_neighbors, hfrom, hni, hns]
  · intro n
    cases hnb : lookupNode store (convert_node_id_from_int_to_hex n.node_id) with
    | none => simp [serialize_one_neighbor, hnb]
    | some nb =>
      cases hfp : from_node.position with
      | none => simp [serialize_one_neighbor, hnb, hfp]
      | some fp =>
        cases hnp : nb.position with
        | none => simp [serialize_one_neighbor, hnb, hfp, hnp]
        | some np =>
          cases ha : fp.latitude_i <;> cases hb : fp.longitude_i <;>
            cases hc : np.latitude_i <;> cases hd : np.longitude_i <;>
              simp [serialize_one_neighbor, hnb, hfp, hnp, ha, hb, hc, hd]

/-- C6, witness for the amended claim: the Store of the counterexample, where
the only neighbor entry resolves to `c6B` and gets a distance attached. -/
theorem C6_amended_neighbor_distance_witness :
    lookupNode c6Store c6A.id = some c6A ∧
    serialize_neighborinfo_neighbors dist0 c6Store c6A =
      .ok ([{ node_id := 3149642683, snr := 5 }].map
        (serialize_one_neighbor dist0 c6Store c6A)) ∧
    (serialize_one_neighbor dist0 c6Store c6A
        { node_id := 3149642683, snr := 5 }).distance.isSome = true := by
  have h := C6_amended_neighbor_distance dist0 c6Store c6A c6A
    { neighbors := some [{ node_id := 3149642683, snr := 5 }] }
    [{ node_id := 3149642683, snr := 5 }] (by decide) rfl rfl
  exact ⟨by decide, h.1,
    (h.2 _).mpr ⟨c6B, by decide, _, _, rfl, rfl, rfl, rfl, rfl, rfl⟩⟩

/-! ## Claim C7 -/

/-- C7, counterexample to the claim as stated: `render_index` and
`render_routes` hand the whole Store to the page as `active_nodes`, so a node
with no active flag at all is included in those active-node views. -/
theorem C7_counterexample :
    ("99999999", ({ id := "99999999" } : NodeR)) ∈
      render_index_active_nodes [("99999999", { id := "99999999" })] ∧
    ("99999999", ({ id := "99999999" } : NodeR)) ∈
      render_routes_active_nodes [("99999999", { id := "99999999" })] ∧
    ({ id := "99999999" } : NodeR).active ≠ some true := by decide

/-- C7, amended: the node-list (`render_nodes`), neighbors
(`render_neighbors`) and stats views filter on the explicit active flag —
only nodes with `active == true` (and, for neighbors, a truthy
`neighborinfo`) are included — but `render_index` and `render_routes` pass
the entire node collection as `active_nodes`. -/
theorem C7_amended_active_views (store : Store) :
    render_index_active_nodes store = store ∧
    render_routes_active_nodes store = store ∧
    render_stats_active_count store =
      (store.filter (fun p => p.2.active == some true)).length ∧
    (∀ dist cfg l, render_nodes_build dist store cfg = .ok l →
      l.map Prod.fst =
        (store.filter (fun p => p.2.active == some true)).map Prod.fst) ∧
    (∀ dist cfg l, render_neighbors_build dist store cfg = .ok l →
      l.map Prod.fst =
        (store.filter
          (fun p => p.2.active == some true && p.2.neighborinfo.isSome)).map
            Prod.fst) := by
  refine ⟨rfl, rfl, ?_, ?_, ?_⟩
  · have h := foldl_count_eq_filter_length (fun p => p.2.active == some true)
      store 0
    simpa [render_stats_active_count] using h
  · intro dist cfg l hl
    exact build_filtered_keys dist store cfg _ store l hl
  · intro dist cfg l hl
    exact build_filtered_keys dist store cfg _ store l hl

/-- C7, witness for the amended claim: on a Store with one active node the
node-list build succeeds and its key set is exactly the active-filtered key
set. -/
theorem C7_amended_active_views_witness :
    ∃ l, render_nodes_build dist0 wStore wCfg = .ok l ∧
      l.map Prod.fst = ["11111111"] ∧
      (wStore.filter (fun p => p.2.active == some true)).map Prod.fst =
        ["11111111"] := by
  obtain ⟨l, hl⟩ : ∃ l, render_nodes_build dist0 wStore wCfg = .ok l := ⟨_, rfl⟩
  refine ⟨l, hl, ?_, by decide⟩
  rw [(C7_amended_active_views wStore).2.2.2.1 dist0 wCfg l hl]
  decide

/-! ## Claim C8 -/

/-- C8: the subscribe step treats a missing/invalid `broker.topics` list and
a missing/invalid `broker.topic` string as a fatal configuration error,
terminating the process with the non-zero exit status 1; a valid topics list
subscribes to every topic in it (taking precedence), and otherwise a valid
single topic string subscribes to exactly that topic. -/
theorem C8_subscription_contract (b : BrokerConfig) :
    (subscribeTopics b = .error 1 ↔
      (∀ ts, b.topics ≠ some (TopicsVal.listV ts)) ∧
      (∀ t, b.topic ≠ some (TopicsVal.strV t))) ∧
    (∀ ts, b.topics = some (TopicsVal.listV ts) → subscribeTopics b = .ok ts) ∧
    (∀ t, (∀ ts, b.topics ≠ some (TopicsVal.listV ts)) →
      b.topic = some (TopicsVal.strV t) → subscribeTopics b = .ok [t]) ∧
    (∀ c, subscribeTopics b = .error c → c ≠ 0) := by
  obtain ⟨tps, tp⟩ := b
  refine ⟨?_, ?_, ?_, ?_⟩
  · rcases tps with _ | v
    · rcases tp with _ | w
      · simp [subscribeTopics]
      · cases w <;> simp [subscribeTopics]
    · rcases tp with _ | w
      · cases v <;> simp [subscribeTopics]
      · cases v <;> cases w <;> simp [subscribeTopics]
  · intro ts h
    rw [show ({ topics := tps, topic := tp } : BrokerConfig).topics = tps from
      rfl] at h
    subst h
    rfl
  · intro t hn ht
    rw [show ({ topics := tps, topic := tp } : BrokerConfig).topic = tp from
      rfl] at ht
    subst ht
    rcases tps with _ | v
    · rfl
    · cases v with
      | listV ts => exact absurd rfl (hn ts)
      | strV s => rfl
      | noneV => rfl
      | otherV => rfl
  · intro c hc
    rcases tps with _ | v
    · rcases tp with _ | w
      · simp [subscribeTopics] at hc; omega
      · cases w <;> simp [subscribeTopics] at hc <;> omega
    · rcases tp with _ | w
      · cases v <;> simp [subscribeTopics] at hc <;> omega
      · cases v <;> cases w <;> simp [subscribeTopics] at hc <;> omega

/-- C8, witness: a valid topics list is subscribed in full; with no valid
list, a valid single topic string is subscribed; with neither, the process
exits with status 1. -/
theorem C8_subscription_contract_witness :
    subscribeTopics { topics := some (TopicsVal.listV ["msh/a/#", "msh/b/#"]) } =
      .ok ["msh/a/#", "msh/b/#"] ∧
    subscribeTopics { topic := some (TopicsVal.strV "msh/#") } = .ok ["msh/#"] ∧
    subscribeTopics { topics := some TopicsVal.noneV, topic := some TopicsVal.noneV } = .error 1 := by
  refine ⟨(C8_subscription_contract _).2.1 _ rfl,
    (C8_subscription_contract _).2.2.1 "msh/#" (fun ts h => by simp at h) rfl,
    (C8_subscription_contract _).1.mpr ⟨fun ts h => ?_, fun t h => ?_⟩⟩
  · injection h with h
    exact TopicsVal.noConfusion h
  · injection h with h
    exact TopicsVal.noConfusion h

/-! ## Claim C9 -/

/-- C9: with a valid subscription configuration, every transport-level error
(connect failure or stream drop) ends its loop iteration by logging the error
and sleeping the fixed 5-unit backoff, after which the loop is back in the
Disconnected state; over any finite sequence of transport errors the loop is
still running (never exited), i.e. the retry repeats indefinitely and a
transport error is never fatal. -/
theorem C9_retry_forever (b : BrokerConfig) (ts : List String)
    (hvalid : subscribeTopics b = .ok ts) :
    (∀ ev, (connectIter b ev).2 = IterResult.backoffRetry ∧
      ∃ pre msg, (connectIter b ev).1 =
        pre ++ [MAction.logInfo msg, MAction.sleep 5]) ∧
    (∀ evs, runLoop b evs = LoopState.disconnected) := by
  have hiter : ∀ ev, (connectIter b ev).2 = IterResult.backoffRetry := by
    intro ev
    cases ev with
    | connectFail err => rfl
    | sessionDrop n err => simp [connectIter, hvalid]
  constructor
  · intro ev
    refine ⟨hiter ev, ?_⟩
    cases ev with
    | connectFail err => exact ⟨[], _, rfl⟩
    | sessionDrop n err =>
      refine ⟨ts.map MAction.subscribeA ++ (List.range n).map MAction.processMsg,
        "Disconnected from MQTT broker: " ++ err, ?_⟩
      simp [connectIter, hvalid]
  · have hstep : ∀ ev, stepLoop b .disconnected ev = .disconnected := by
      intro ev
      unfold stepLoop
      rw [hiter ev]
    intro evs
    induction evs with
    | nil => rfl
    | cons e es ih =>
      show List.foldl (stepLoop b) (stepLoop b .disconnected e) es =
        LoopState.disconnected
      rw [hstep e]
      exact ih

/-- C9, witness: a concrete valid configuration retries through a connect
failure and a stream drop and is still running. -/
theorem C9_retry_forever_witness :
    subscribeTopics { topics := some (TopicsVal.listV ["msh/#"]) } =
      .ok ["msh/#"] ∧
    (connectIter { topics := some (TopicsVal.listV ["msh/#"]) }
      (ConnEvent.connectFail "broker down")).2 = IterResult.backoffRetry ∧
    runLoop { topics := some (TopicsVal.listV ["msh/#"]) }
      [ConnEvent.connectFail "broker down", ConnEvent.sessionDrop 3 "dropped"] =
      LoopState.disconnected := by
  refine ⟨rfl, ?_, ?_⟩
  · exact ((C9_retry_forever { topics := some (TopicsVal.listV ["msh/#"]) }
      ["msh/#"] rfl).1 _).1
  · exact (C9_retry_forever { topics := some (TopicsVal.listV ["msh/#"]) }
      ["msh/#"] rfl).2 _

/-! ## Claim C10 -/

/-- C10, counterexample to the claim as stated: with the server's node not in
the Store but no active node present, the node-list and neighbors builds
succeed (returning empty collections) — those pages do not fail for that
pass, contradicting "the per-node, node-list, neighbors, and map pages all
fail ... whenever the server's own node has not yet been observed". -/
theorem C10_counterexample :
    lookupNode [("22222222", { id := "22222222" })] "ffffffff" = none ∧
    render_nodes_build dist0 [("22222222", { id := "22222222" })]
      { server_node_id := "ffffffff" } = .ok [] ∧
    render_neighbors_build dist0 [("22222222", { id := "22222222" })]
      { server_node_id := "ffffffff" } = .ok [] := by decide

/-- C10, amended: when the configured server id is not a key of the Store,
per-node serialization raises a key-lookup error for every target node
(instead of omitting the distance field), the map page always fails, the
per-node pages fail iff the Store is nonempty, the node-list page fails iff
some node is flagged active, and the neighbors page fails iff some node is
flagged active with a truthy neighbor info. -/
theorem C10_amended_server_lookup (dist : ℚ → ℚ → ℚ → ℚ → ℚ) (store : Store)
    (cfg : Config) (hmiss : lookupNode store cfg.server_node_id = none) :
    (∀ node, isErr (serialize_node dist store cfg node) = true) ∧
    isErr (render_map_build store cfg) = true ∧
    (isErr (render_nodes_each_build dist store cfg) = true ↔ store ≠ []) ∧
    (isErr (render_nodes_build dist store cfg) = true ↔
      ∃ p ∈ store, p.2.active = some true) ∧
    (isErr (render_neighbors_build dist store cfg) = true ↔
      ∃ p ∈ store, p.2.active = some true ∧ p.2.neighborinfo.isSome = true) := by
  have hser : ∀ node, isErr (serialize_node dist store cfg node) = true :=
    fun node => serialize_node_err_of_no_server dist store cfg node hmiss
  refine ⟨hser, ?_, ?_, ?_, ?_⟩
  · simp [render_map_build, hmiss, isErr]
  · exact build_each_err_iff dist store cfg hser store
  · rw [render_nodes_build, build_filtered_err_iff dist store cfg _ hser store]
    simp
  · rw [render_neighbors_build, build_filtered_err_iff dist store cfg _ hser store]
    simp

/-- C10, witness for the amended claim: with an active node in the Store and
the server id absent, the map, per-node and node-list passes all raise. -/
theorem C10_amended_server_lookup_witness :
    lookupNode wStore "ffffffff" = none ∧
    isErr (render_map_build wStore { server_node_id := "ffffffff" }) = true ∧
    isErr (render_nodes_each_build dist0 wStore
      { server_node_id := "ffffffff" }) = true ∧
    isErr (render_nodes_build dist0 wStore
      { server_node_id := "ffffffff" }) = true := by
  have h := C10_amended_server_lookup dist0 wStore
    { server_node_id := "ffffffff" } (by decide)
  refine ⟨by decide, h.2.1, (h.2.2.1).mpr (by decide), (h.2.2.2.1).mpr ?_⟩
  exact ⟨("11111111", wNode), by decide, rfl⟩

end Meshinfo
